import Mathlib

/-!
Shallow embedding of the token lifecycle manager of `src/auth.ts`
(the mcp-fitbit repository): the in-memory token state, the token file,
the OAuth callback listener, and the public operations
`getAccessToken`, `initializeAuth`, `startAuthorizationFlow`,
`saveTokenToFile`, `loadTokenFromFile`.

Runtime values of `FitbitTokenData` come from unchecked `JSON.parse` of
the token file and unchecked casts of provider responses, so every field
is modelled as an `Option` (a missing JSON key is `none`); the TypeScript
interface's optional field is `expires_at`.  JavaScript time is modelled
by an abstract current time `now : Int` and an abstract date parser
`parseDate : String → Option Int` (`none` stands for an Invalid Date,
whose comparisons are all false).  Network effects (refresh, code
exchange) are modelled as explicit function parameters; the token file is
a field of the state holding the serialized JSON object.
-/

/-- A JSON scalar as it appears in the token file: the token fields are
strings except `expires_in`, a number. -/
inductive JVal where
  | str : String → JVal
  | num : Int → JVal
deriving DecidableEq

/-- The token record of `src/auth.ts` lines 13-22 (interface
`FitbitTokenData`).  All fields are `Option` because values are produced
by unchecked `JSON.parse` / provider casts at runtime. -/
structure FitbitTokenData where
  access_token : Option String
  refresh_token : Option String
  expires_in : Option Int
  expires_at : Option String
  scope : Option String
  token_type : Option String
  user_id : Option String
deriving DecidableEq

/-- The module-level mutable state of `src/auth.ts` lines 52-57 plus the
persisted token file: `accessToken`, `tokenData`, the presence of the
temporary `oauthServer` instance, and the JSON content of
`.fitbit-token.json` (`none` when the file is missing or unparsable). -/
structure AuthState where
  accessToken : Option String
  tokenData : Option FitbitTokenData
  oauthServer : Bool
  tokenFile : Option (List (String × JVal))
deriving DecidableEq

/-- JavaScript truthiness of a `string | null | undefined` value:
`null`/`undefined` (`none`) and the empty string are falsy. -/
def falsyOptStr : Option String → Bool
  | none => true
  | some s => decide (s = "")

/-- Truthiness: the complement of `falsyOptStr`. -/
def truthyOptStr (o : Option String) : Bool := !(falsyOptStr o)

/-- The expiry test of `src/auth.ts` line 249 / line 293:
`tokenData.expires_at && new Date(tokenData.expires_at) < new Date()`.
An absent or empty `expires_at` is falsy; an unparsable date (Invalid
Date) compares false. -/
def jsExpiredCheck (parseDate : String → Option Int)
    (t : FitbitTokenData) (now : Int) : Bool :=
  match t.expires_at with
  | none => false
  | some s =>
    if s = "" then false
    else
      match parseDate s with
      | none => false
      | some e => decide (e < now)

/-- Modelled from the simple-oauth2 library: `AccessToken#expired()`
compares the parsed `expires_at` against the current time
(`expires_at <= Date.now()` with the default zero window); when
`expires_at` is absent the constructor derives it from `expires_in`
seconds ahead of now, so the token is expired iff `expires_in <= 0`. -/
def libExpired (parseDate : String → Option Int)
    (t : FitbitTokenData) (now : Int) : Bool :=
  match t.expires_at with
  | some s =>
    (match parseDate s with
     | none => false
     | some e => decide (e ≤ now))
  | none =>
    (match t.expires_in with
     | none => false
     | some d => decide (d ≤ 0))

/-- One serialized entry of a string field; `JSON.stringify` skips a key
whose value is `undefined`. -/
def optStrEntry (k : String) (v : Option String) : List (String × JVal) :=
  match v with
  | none => []
  | some s => [(k, JVal.str s)]

/-- One serialized entry of a numeric field. -/
def optNumEntry (k : String) (v : Option Int) : List (String × JVal) :=
  match v with
  | none => []
  | some n => [(k, JVal.num n)]

/-- `JSON.stringify(tokenData, null, 2)` of `src/auth.ts` line 77,
modelled as the JSON object (key/value list) it writes. -/
def toJsonObj (t : FitbitTokenData) : List (String × JVal) :=
  optStrEntry "access_token" t.access_token ++
  optStrEntry "refresh_token" t.refresh_token ++
  optNumEntry "expires_in" t.expires_in ++
  optStrEntry "expires_at" t.expires_at ++
  optStrEntry "scope" t.scope ++
  optStrEntry "token_type" t.token_type ++
  optStrEntry "user_id" t.user_id

/-- Key lookup in a JSON object, first occurrence wins. -/
def jlookup (k : String) : List (String × JVal) → Option JVal
  | [] => none
  | (k', v) :: rest => if k' = k then some v else jlookup k rest

/-- Reading a JSON value as a string field. -/
def jStr : Option JVal → Option String
  | some (JVal.str s) => some s
  | _ => none

/-- Reading a JSON value as a numeric field. -/
def jNum : Option JVal → Option Int
  | some (JVal.num n) => some n
  | _ => none

/-- `JSON.parse` of the token file (`src/auth.ts` line 98) viewed through
the `FitbitTokenData` interface: each field is the value at its key,
`none` when the key is absent. -/
def fromJsonObj (j : List (String × JVal)) : FitbitTokenData :=
  { access_token := jStr (jlookup "access_token" j)
    refresh_token := jStr (jlookup "refresh_token" j)
    expires_in := jNum (jlookup "expires_in" j)
    expires_at := jStr (jlookup "expires_at" j)
    scope := jStr (jlookup "scope" j)
    token_type := jStr (jlookup "token_type" j)
    user_id := jStr (jlookup "user_id" j) }

/-- `saveTokenToFile` (`src/auth.ts` lines 73-84): serializes the record
and writes it to the fixed token file path. -/
def saveTokenToFile (t : FitbitTokenData) (s : AuthState) : AuthState :=
  { s with tokenFile := some (toJsonObj t) }

/-- `loadTokenFromFile` (`src/auth.ts` lines 90-105): `none` when the
file is missing or unparsable, otherwise the parsed record. -/
def loadTokenFromFile (s : AuthState) : Option FitbitTokenData :=
  s.tokenFile.map fromJsonObj

/-- A refresh failure as the spec's taxonomy distinguishes it: transient
(network-level, retryable) versus terminal (refresh token
invalid/revoked).  The source's single `catch` clause receives either
kind as a thrown error. -/
inductive RefreshErrKind where
  | transient
  | terminal
deriving DecidableEq

/-- The observable outcome of one `getAccessToken()` call: the returned
value, the state it leaves behind, and how many refresh attempts it
made. -/
structure GetTokenResult where
  ret : Option String
  state : AuthState
  refreshCalls : Nat
deriving DecidableEq

/-- `getAccessToken` (`src/auth.ts` lines 242-275).  `refresh` stands for
`accessTokenObj.refresh()`: `Sum.inr` a new record on success, `Sum.inl`
a thrown error otherwise.  The `catch` clause clears both `accessToken`
and `tokenData` whatever the error kind. -/
def getAccessToken (now : Int) (parseDate : String → Option Int)
    (refresh : FitbitTokenData → Sum RefreshErrKind FitbitTokenData)
    (s : AuthState) : GetTokenResult :=
  match s.tokenData with
  | none => ⟨none, s, 0⟩
  | some t =>
    if falsyOptStr s.accessToken then ⟨none, s, 0⟩
    else if jsExpiredCheck parseDate t now then
      if libExpired parseDate t now then
        match refresh t with
        | Sum.inl _ =>
          ⟨none, { s with accessToken := none, tokenData := none }, 1⟩
        | Sum.inr nt =>
          ⟨nt.access_token,
           { s with accessToken := nt.access_token, tokenData := some nt,
                    tokenFile := some (toJsonObj nt) }, 1⟩
      else ⟨s.accessToken, s, 0⟩
    else ⟨s.accessToken, s, 0⟩

/-- `initializeAuth` (`src/auth.ts` lines 281-325): loads the persisted
record, adopts it when its `access_token` is truthy, and eagerly applies
the same expiry/refresh logic as `getAccessToken`. -/
def initializeAuth (now : Int) (parseDate : String → Option Int)
    (refresh : FitbitTokenData → Sum RefreshErrKind FitbitTokenData)
    (s : AuthState) : AuthState :=
  let loaded := loadTokenFromFile s
  let s1 := { s with tokenData := loaded }
  match loaded with
  | none => s1
  | some t =>
    if truthyOptStr t.access_token then
      let s2 := { s1 with accessToken := t.access_token }
      if jsExpiredCheck parseDate t now then
        if libExpired parseDate t now then
          match refresh t with
          | Sum.inl _ => { s2 with accessToken := none, tokenData := none }
          | Sum.inr nt =>
            { s2 with accessToken := nt.access_token, tokenData := some nt,
                      tokenFile := some (toJsonObj nt) }
        else s2
      else s2
    else s1

/-- The observable outcome of one `/callback` request (`src/auth.ts`
lines 144-203): the HTTP status of the response, the state at the moment
the handler returns (`sync` - a `server.close` callback scheduled in the
`finally` block has not yet run), and the state after any pending close
callback has fired (`settled`). -/
structure CallbackResult where
  status : Nat
  sync : AuthState
  settled : AuthState
deriving DecidableEq

/-- The `/callback` route handler (`src/auth.ts` lines 144-203).
`exchange` stands for `oauthClient.getToken`: `Sum.inr` a token record
on success, `Sum.inl` a thrown error otherwise.  On a missing (falsy)
`code` the handler answers 400 and nulls `oauthServer` synchronously
(line 155); on success it answers 200 after updating and persisting the
token state; on an exchange error it answers 500; in the latter two
cases the `finally` block closes the server but nulls `oauthServer` only
inside the close callback (line 199). -/
def handleCallback (exchange : String → Sum Unit FitbitTokenData)
    (code : Option String) (s : AuthState) : CallbackResult :=
  if falsyOptStr code then
    let s' := if s.oauthServer then { s with oauthServer := false } else s
    ⟨400, s', s'⟩
  else
    match code with
    | none => ⟨400, s, s⟩
    | some c =>
      match exchange c with
      | Sum.inr tok =>
        let s1 := { s with accessToken := tok.access_token,
                           tokenData := some tok,
                           tokenFile := some (toJsonObj tok) }
        ⟨200, s1, if s1.oauthServer then { s1 with oauthServer := false } else s1⟩
      | Sum.inl _ =>
        ⟨500, s, if s.oauthServer then { s with oauthServer := false } else s⟩

/-- The observable outcome of one `startAuthorizationFlow()` call
(`src/auth.ts` lines 114-235): the state right after the call returns
(`sync`), the state after the asynchronous listen callback or `error`
event has fired (`settled`), and whether a listener is actually bound
and serving. -/
structure StartResult where
  sync : AuthState
  settled : AuthState
  bound : Bool
deriving DecidableEq

/-- `startAuthorizationFlow` (`src/auth.ts` lines 114-235): a no-op when
a server instance already exists (line 116) or when the client id or
secret is empty (line 121); otherwise `app.listen` stores the server
instance synchronously (line 206), and a bind failure fires the `error`
handler which nulls the instance (lines 231-234). -/
def startAuthorizationFlow (clientId clientSecret : String)
    (bindOk : Bool) (s : AuthState) : StartResult :=
  if s.oauthServer then ⟨s, s, false⟩
  else if clientId = "" ∨ clientSecret = "" then ⟨s, s, false⟩
  else
    let s1 := { s with oauthServer := true }
    if bindOk then ⟨s1, s1, true⟩
    else ⟨s1, { s1 with oauthServer := false }, false⟩

/-- A record with all the fields the interface requires: a truthy
`access_token` and present `refresh_token`, `expires_in`, `scope`,
`token_type`, `user_id` (`expires_at` is optional). -/
def wellFormed (t : FitbitTokenData) : Bool :=
  truthyOptStr t.access_token && t.refresh_token.isSome &&
  t.expires_in.isSome && t.scope.isSome && t.token_type.isSome &&
  t.user_id.isSome

/-- The spec's all-or-nothing invariant on the in-memory pair: either
both `tokenData` and `accessToken` are absent, or `tokenData` has all
required fields and `accessToken` is a populated string. -/
def allOrNone (s : AuthState) : Bool :=
  match s.tokenData with
  | none => s.accessToken.isNone
  | some t => wellFormed t && truthyOptStr s.accessToken

/-- A concrete date parser standing in for JavaScript `Date` parsing in
witnesses and counterexamples. -/
def sampleParse (s : String) : Option Int :=
  if s = "10" then some 10 else if s = "999" then some 999 else none

/-- A concrete well-formed token record whose expiry (`"10"`) is in the
past relative to the sample current time `50`. -/
def sampleTok : FitbitTokenData :=
  { access_token := some "atk"
    refresh_token := some "rtk"
    expires_in := some 28800
    expires_at := some "10"
    scope := some "weight sleep"
    token_type := some "Bearer"
    user_id := some "U1" }

/-- A concrete well-formed token record whose expiry (`"999"`) is in the
future relative to the sample current time `50`. -/
def sampleTok2 : FitbitTokenData :=
  { access_token := some "atk2"
    refresh_token := some "rtk2"
    expires_in := some 28800
    expires_at := some "999"
    scope := some "weight sleep"
    token_type := some "Bearer"
    user_id := some "U1" }

/-- A concrete in-memory state holding the expired `sampleTok`, with no
listener and no persisted file. -/
def sampleState : AuthState :=
  { accessToken := some "atk", tokenData := some sampleTok,
    oauthServer := false, tokenFile := none }

/-- A concrete state in which the callback listener is running. -/
def serverState : AuthState :=
  { accessToken := none, tokenData := none,
    oauthServer := true, tokenFile := none }

/-- A concrete fresh state: nothing in memory, no listener, no file. -/
def freshState : AuthState :=
  { accessToken := none, tokenData := none,
    oauthServer := false, tokenFile := none }

/-- A concrete exchange function that always succeeds with
`sampleTok2`. -/
def sampleExch : String → Sum Unit FitbitTokenData :=
  fun _ => Sum.inr sampleTok2

/-- A refresh function that always fails with a transient error. -/
def refreshTransient :
    FitbitTokenData → Sum RefreshErrKind FitbitTokenData :=
  fun _ => Sum.inl RefreshErrKind.transient

/-- A refresh function that always fails with a terminal error. -/
def refreshTerminal :
    FitbitTokenData → Sum RefreshErrKind FitbitTokenData :=
  fun _ => Sum.inl RefreshErrKind.terminal

/-- A refresh function that always succeeds with `sampleTok2`. -/
def refreshOk : FitbitTokenData → Sum RefreshErrKind FitbitTokenData :=
  fun _ => Sum.inr sampleTok2

theorem truthy_falsyOptStr {o : Option String}
    (h : truthyOptStr o = true) : falsyOptStr o = false := by
  unfold truthyOptStr at h
  simpa using h

/-- Whenever the source's own expiry test (line 249) fires, the
library's `expired()` test fires as well, so the guarded refresh is
always attempted. -/
theorem libExpired_of_jsExpiredCheck (parseDate : String → Option Int)
    (t : FitbitTokenData) (now : Int)
    (h : jsExpiredCheck parseDate t now = true) :
    libExpired parseDate t now = true := by
  unfold jsExpiredCheck at h
  unfold libExpired
  cases he : t.expires_at with
  | none => simp [he] at h
  | some s =>
    simp only [he] at h ⊢
    by_cases hs : s = ""
    · simp [hs] at h
    · simp only [if_neg hs] at h
      cases hp : parseDate s with
      | none => simp [hp] at h
      | some e =>
        simp only [hp, decide_eq_true_eq] at h ⊢
        omega

theorem jlookup_skip_str (k k' : String) (v : Option String)
    (rest : List (String × JVal)) (h : ¬ k' = k) :
    jlookup k (optStrEntry k' v ++ rest) = jlookup k rest := by
  cases v <;> simp [optStrEntry, jlookup, h]

theorem jlookup_skip_num (k k' : String) (v : Option Int)
    (rest : List (String × JVal)) (h : ¬ k' = k) :
    jlookup k (optNumEntry k' v ++ rest) = jlookup k rest := by
  cases v <;> simp [optNumEntry, jlookup, h]

theorem jStr_jlookup_entry (k : String) (v : Option String)
    (rest : List (String × JVal)) (hrest : jlookup k rest = none) :
    jStr (jlookup k (optStrEntry k v ++ rest)) = v := by
  cases v <;> simp [optStrEntry, jlookup, jStr, hrest]

theorem jNum_jlookup_entry (k : String) (v : Option Int)
    (rest : List (String × JVal)) (hrest : jlookup k rest = none) :
    jNum (jlookup k (optNumEntry k v ++ rest)) = v := by
  cases v <;> simp [optNumEntry, jlookup, jNum, hrest]

theorem jlookup_skip_str_last (k k' : String) (v : Option String)
    (h : ¬ k' = k) : jlookup k (optStrEntry k' v) = none := by
  cases v <;> simp [optStrEntry, jlookup, h]

theorem jStr_jlookup_last (k : String) (v : Option String) :
    jStr (jlookup k (optStrEntry k v)) = v := by
  cases v <;> simp [optStrEntry, jlookup, jStr]

theorem fromJson_toJson (t : FitbitTokenData) :
    fromJsonObj (toJsonObj t) = t := by
  obtain ⟨a, r, ei, ea, sc, tt, u⟩ := t
  simp only [toJsonObj, fromJsonObj, FitbitTokenData.mk.injEq,
             List.append_assoc]
  refine ⟨?_, ?_, ?_, ?_, ?_, ?_, ?_⟩ <;>
    simp [jlookup_skip_str, jlookup_skip_num, jStr_jlookup_entry,
          jNum_jlookup_entry, jlookup_skip_str_last, jStr_jlookup_last]

theorem getAccessToken_not_expired_aux (now : Int)
    (parseDate : String → Option Int)
    (refresh : FitbitTokenData → Sum RefreshErrKind FitbitTokenData)
    (s : AuthState) (t : FitbitTokenData)
    (ht : s.tokenData = some t)
    (ha : truthyOptStr s.accessToken = true)
    (he : jsExpiredCheck parseDate t now = false) :
    getAccessToken now parseDate refresh s = ⟨s.accessToken, s, 0⟩ := by
  simp [getAccessToken, ht, truthy_falsyOptStr ha, he]

theorem getAccessToken_refresh_error_aux (now : Int)
    (parseDate : String → Option Int)
    (refresh : FitbitTokenData → Sum RefreshErrKind FitbitTokenData)
    (s : AuthState) (t : FitbitTokenData) (e : RefreshErrKind)
    (ht : s.tokenData = some t)
    (ha : truthyOptStr s.accessToken = true)
    (he : jsExpiredCheck parseDate t now = true)
    (hr : refresh t = Sum.inl e) :
    getAccessToken now parseDate refresh s =
      ⟨none, { s with accessToken := none, tokenData := none }, 1⟩ := by
  simp [getAccessToken, ht, truthy_falsyOptStr ha, he,
        libExpired_of_jsExpiredCheck parseDate t now he, hr]

/-- C6: `saveTokenToFile` followed by `loadTokenFromFile` reproduces an
equivalent `FitbitTokenData` for every record, including records with
absent optional fields. -/
theorem save_load_roundtrip (t : FitbitTokenData) (s : AuthState) :
    loadTokenFromFile (saveTokenToFile t s) = some t := by
  simp [loadTokenFromFile, saveTokenToFile, fromJson_toJson]

/-- C7: for every in-memory record that is not expired (the line-249
test is false because `expires_at` does not parse to a time before
`now`), `getAccessToken` returns the stored access token unchanged,
makes no refresh attempt, and leaves the state (including the persisted
file) unmodified. -/
theorem getAccessToken_unexpired_returns_stored (now : Int)
    (parseDate : String → Option Int)
    (refresh : FitbitTokenData → Sum RefreshErrKind FitbitTokenData)
    (s : AuthState) (t : FitbitTokenData)
    (ht : s.tokenData = some t)
    (ha : truthyOptStr s.accessToken = true)
    (he : jsExpiredCheck parseDate t now = false) :
    getAccessToken now parseDate refresh s = ⟨s.accessToken, s, 0⟩ :=
  getAccessToken_not_expired_aux now parseDate refresh s t ht ha he

theorem getAccessToken_unexpired_returns_stored_witness :
    getAccessToken 50 sampleParse refreshOk
        { sampleState with tokenData := some sampleTok2 } =
      ⟨some "atk", { sampleState with tokenData := some sampleTok2 }, 0⟩ :=
  getAccessToken_unexpired_returns_stored 50 sampleParse refreshOk
    { sampleState with tokenData := some sampleTok2 } sampleTok2
    rfl (by decide) (by decide)

/-- C10: for every in-memory record whose `expires_at` is absent or the
empty string, `getAccessToken` never treats the record as expired: for
every current time it makes no refresh attempt and returns the stored
access token, leaving the state unmodified (the line-249 truthiness
guard short-circuits). -/
theorem getAccessToken_absent_expiry_no_refresh (now : Int)
    (parseDate : String → Option Int)
    (refresh : FitbitTokenData → Sum RefreshErrKind FitbitTokenData)
    (s : AuthState) (t : FitbitTokenData)
    (ht : s.tokenData = some t)
    (ha : truthyOptStr s.accessToken = true)
    (he : t.expires_at = none ∨ t.expires_at = some "") :
    getAccessToken now parseDate refresh s = ⟨s.accessToken, s, 0⟩ := by
  have hexp : jsExpiredCheck parseDate t now = false := by
    rcases he with h | h <;> simp [jsExpiredCheck, h]
  exact getAccessToken_not_expired_aux now parseDate refresh s t ht ha hexp

theorem getAccessToken_absent_expiry_no_refresh_witness :
    getAccessToken 1000000 sampleParse refreshTerminal
        { sampleState with
            tokenData := some { sampleTok with expires_at := none } } =
      ⟨some "atk",
       { sampleState with
            tokenData := some { sampleTok with expires_at := none } }, 0⟩ :=
  getAccessToken_absent_expiry_no_refresh 1000000 sampleParse
    refreshTerminal _ { sampleTok with expires_at := none }
    rfl (by decide) (Or.inl rfl)

/-- C2: for every in-memory record whose `expires_at` parses to a time
before `now`, one `getAccessToken()` call makes exactly one refresh
attempt; when the refresh succeeds the in-memory state is updated to the
new record, the new record is persisted to the token file, and the new
access token is returned. -/
theorem getAccessToken_expired_refreshes_once (now : Int)
    (parseDate : String → Option Int)
    (refresh : FitbitTokenData → Sum RefreshErrKind FitbitTokenData)
    (s : AuthState) (t : FitbitTokenData)
    (ht : s.tokenData = some t)
    (ha : truthyOptStr s.accessToken = true)
    (he : jsExpiredCheck parseDate t now = true) :
    (getAccessToken now parseDate refresh s).refreshCalls = 1 ∧
    ∀ nt, refresh t = Sum.inr nt →
      getAccessToken now parseDate refresh s =
        ⟨nt.access_token,
         { s with accessToken := nt.access_token, tokenData := some nt,
                  tokenFile := some (toJsonObj nt) }, 1⟩ := by
  have hl := libExpired_of_jsExpiredCheck parseDate t now he
  constructor
  · cases hr : refresh t <;>
      simp [getAccessToken, ht, truthy_falsyOptStr ha, he, hl, hr]
  · intro nt hnt
    simp [getAccessToken, ht, truthy_falsyOptStr ha, he, hl, hnt]

theorem getAccessToken_expired_refreshes_once_witness :
    (getAccessToken 50 sampleParse refreshOk sampleState).refreshCalls = 1 ∧
    ∀ nt, refreshOk sampleTok = Sum.inr nt →
      getAccessToken 50 sampleParse refreshOk sampleState =
        ⟨nt.access_token,
         { sampleState with accessToken := nt.access_token,
                            tokenData := some nt,
                            tokenFile := some (toJsonObj nt) }, 1⟩ :=
  getAccessToken_expired_refreshes_once 50 sampleParse refreshOk
    sampleState sampleTok rfl (by decide) (by decide)

/-- C1 counterexample: with the expired `sampleTok` in memory and a
refresh that fails with a transient (network-level) error,
`getAccessToken` does not leave the in-memory record unchanged — it
clears `tokenData` and `accessToken`, contradicting the claim that a
transient failure preserves the existing record. -/
theorem transient_refresh_preserves_state_cex :
    ¬ ((getAccessToken 50 sampleParse refreshTransient
          sampleState).state = sampleState) := by
  decide

/-- C1 (amended): for every in-memory record whose `expires_at` parses
to a time before `now`, if the refresh attempt fails with a transient
(network-level) error, `getAccessToken()` returns not-available AND
clears the in-memory record (`tokenData` and `accessToken` both become
`none`): the single `catch` clause of lines 266-271 does not distinguish
transient from terminal failures, so a later call cannot retry the
refresh and re-authorization is required. -/
theorem refresh_failure_clears_state (now : Int)
    (parseDate : String → Option Int)
    (refresh : FitbitTokenData → Sum RefreshErrKind FitbitTokenData)
    (s : AuthState) (t : FitbitTokenData)
    (ht : s.tokenData = some t)
    (ha : truthyOptStr s.accessToken = true)
    (he : jsExpiredCheck parseDate t now = true)
    (hr : refresh t = Sum.inl RefreshErrKind.transient) :
    getAccessToken now parseDate refresh s =
      ⟨none, { s with accessToken := none, tokenData := none }, 1⟩ :=
  getAccessToken_refresh_error_aux now parseDate refresh s t
    RefreshErrKind.transient ht ha he hr

theorem refresh_failure_clears_state_witness :
    getAccessToken 50 sampleParse refreshTransient sampleState =
      ⟨none, { sampleState with accessToken := none, tokenData := none },
       1⟩ :=
  refresh_failure_clears_state 50 sampleParse refreshTransient
    sampleState sampleTok rfl (by decide) (by decide) rfl

/-- C3: for every in-memory record whose `expires_at` parses to a time
before `now`, a terminal refresh failure (refresh token
invalid/revoked) clears the in-memory token state entirely and the call
returns not-available; moreover every `getAccessToken()` call made while
`tokenData` is absent returns not-available and changes nothing, so no
stale access token is returned until a new authorization flow
repopulates the state. -/
theorem terminal_refresh_failure_forces_reauth (now : Int)
    (parseDate : String → Option Int)
    (refresh : FitbitTokenData → Sum RefreshErrKind FitbitTokenData)
    (s : AuthState) (t : FitbitTokenData)
    (ht : s.tokenData = some t)
    (ha : truthyOptStr s.accessToken = true)
    (he : jsExpiredCheck parseDate t now = true)
    (hr : refresh t = Sum.inl RefreshErrKind.terminal) :
    getAccessToken now parseDate refresh s =
      ⟨none, { s with accessToken := none, tokenData := none }, 1⟩ ∧
    ∀ (now2 : Int) (pd2 : String → Option Int)
      (r2 : FitbitTokenData → Sum RefreshErrKind FitbitTokenData)
      (s2 : AuthState), s2.tokenData = none →
      getAccessToken now2 pd2 r2 s2 = ⟨none, s2, 0⟩ := by
  constructor
  · exact getAccessToken_refresh_error_aux now parseDate refresh s t
      RefreshErrKind.terminal ht ha he hr
  · intro now2 pd2 r2 s2 h2
    simp [getAccessToken, h2]

theorem terminal_refresh_failure_forces_reauth_witness :
    (getAccessToken 50 sampleParse refreshTerminal sampleState =
      ⟨none, { sampleState with accessToken := none, tokenData := none },
       1⟩ ∧
    ∀ (now2 : Int) (pd2 : String → Option Int)
      (r2 : FitbitTokenData → Sum RefreshErrKind FitbitTokenData)
      (s2 : AuthState), s2.tokenData = none →
      getAccessToken now2 pd2 r2 s2 = ⟨none, s2, 0⟩) :=
  terminal_refresh_failure_forces_reauth 50 sampleParse refreshTerminal
    sampleState sampleTok rfl (by decide) (by decide) rfl

/-- An exchange function that always fails (a thrown provider error). -/
def exchFail : String → Sum Unit FitbitTokenData :=
  fun _ => Sum.inl ()

theorem close_if_server (s : AuthState) :
    (if s.oauthServer then { s with oauthServer := false } else s) =
      { s with oauthServer := false } := by
  by_cases h : s.oauthServer = true
  · simp [h]
  · simp only [Bool.not_eq_true] at h
    cases s
    simp_all

/-- C8: a `startAuthorizationFlow()` call made while a listener instance
already exists is a no-op (no second listener binds, no state changes),
and a call made with an empty client id or client secret likewise
returns before binding anything. -/
theorem startAuthorizationFlow_noop_guards (clientId clientSecret : String)
    (bindOk : Bool) (s : AuthState) :
    (s.oauthServer = true →
      startAuthorizationFlow clientId clientSecret bindOk s =
        ⟨s, s, false⟩) ∧
    ((clientId = "" ∨ clientSecret = "") →
      startAuthorizationFlow clientId clientSecret bindOk s =
        ⟨s, s, false⟩) := by
  constructor
  · intro h
    simp [startAuthorizationFlow, h]
  · intro h
    by_cases hs : s.oauthServer = true
    · simp [startAuthorizationFlow, hs]
    · simp only [Bool.not_eq_true] at hs
      simp [startAuthorizationFlow, hs, h]

theorem startAuthorizationFlow_noop_guards_witness :
    startAuthorizationFlow "cid" "sec" true serverState =
      ⟨serverState, serverState, false⟩ ∧
    startAuthorizationFlow "" "sec" true freshState =
      ⟨freshState, freshState, false⟩ :=
  ⟨(startAuthorizationFlow_noop_guards "cid" "sec" true serverState).1 rfl,
   (startAuthorizationFlow_noop_guards "" "sec" true freshState).2
     (Or.inl rfl)⟩

/-- C9: the `/callback` route answers 200 when the code exchange
succeeds, 400 when the `code` query parameter is missing (falsy), and
500 when the exchange fails; in the missing-code case the listener is
stopped and every other component of the state - `tokenData`,
`accessToken`, the token file - is unchanged. -/
theorem callback_route_status_codes
    (exch : String → Sum Unit FitbitTokenData) (code : Option String)
    (s : AuthState) :
    (falsyOptStr code = true →
      handleCallback exch code s =
        ⟨400, { s with oauthServer := false },
              { s with oauthServer := false }⟩) ∧
    (∀ c tok, code = some c → falsyOptStr code = false →
      exch c = Sum.inr tok → (handleCallback exch code s).status = 200) ∧
    (∀ c e, code = some c → falsyOptStr code = false →
      exch c = Sum.inl e → (handleCallback exch code s).status = 500) := by
  refine ⟨?_, ?_, ?_⟩
  · intro h
    simp [handleCallback, h, close_if_server]
  · intro c tok hc hf hx
    subst hc
    simp [handleCallback, hf, hx]
  · intro c e hc hf hx
    subst hc
    simp [handleCallback, hf, hx]

theorem callback_route_status_codes_witness :
    handleCallback sampleExch none serverState =
      ⟨400, { serverState with oauthServer := false },
            { serverState with oauthServer := false }⟩ ∧
    (handleCallback sampleExch (some "c1") serverState).status = 200 ∧
    (handleCallback exchFail (some "c1") serverState).status = 500 :=
  ⟨(callback_route_status_codes sampleExch none serverState).1 rfl,
   (callback_route_status_codes sampleExch (some "c1") serverState).2.1
     "c1" sampleTok2 rfl (by decide) rfl,
   (callback_route_status_codes exchFail (some "c1") serverState).2.2
     "c1" () rfl (by decide) rfl⟩

/-- C5 counterexample: on the success path of the callback handler the
listener reference is NOT cleared synchronously - at the moment the
handler returns, `oauthServer` is still set, because the `finally` block
nulls it only inside the `server.close` callback (line 199).  This
contradicts the claim that the clearing happens synchronously on every
teardown path. -/
theorem sync_clear_on_success_cex :
    ¬ ((handleCallback sampleExch (some "c1")
          serverState).sync.oauthServer = false) := by
  decide

/-- C5 (amended): every execution path of the callback listener -
success, missing code, exchange failure - reaches Stopped: once any
pending close callback has run, the listener reference is cleared, and a
bind failure also settles with the reference cleared, so a fresh
`startAuthorizationFlow()` can bind again.  However the clearing is
synchronous only on the missing-code path (line 155) and inside the
bind-failure `error` handler; on the success and exchange-failure paths
the reference is cleared asynchronously, inside the `server.close`
callback of the `finally` block, not synchronously at handler return. -/
theorem listener_teardown_reaches_stopped :
    (∀ (exch : String → Sum Unit FitbitTokenData) (code : Option String)
       (s : AuthState),
      (handleCallback exch code s).settled.oauthServer = false) ∧
    (∀ (exch : String → Sum Unit FitbitTokenData) (code : Option String)
       (s : AuthState), falsyOptStr code = true →
      (handleCallback exch code s).sync.oauthServer = false) ∧
    (∀ (cid csec : String) (s : AuthState), s.oauthServer = false →
      ¬ cid = "" → ¬ csec = "" →
      (startAuthorizationFlow cid csec false s).settled.oauthServer =
        false) ∧
    (∀ (cid csec : String) (s : AuthState), s.oauthServer = false →
      ¬ cid = "" → ¬ csec = "" →
      (startAuthorizationFlow cid csec true s).bound = true) := by
  refine ⟨?_, ?_, ?_, ?_⟩
  · intro exch code s
    rcases code with _ | c
    · simp [handleCallback, falsyOptStr, close_if_server]
    · by_cases hc : c = ""
      · simp [handleCallback, falsyOptStr, hc, close_if_server]
      · cases hx : exch c with
        | inl e =>
          by_cases hs : s.oauthServer = true <;>
            simp [handleCallback, falsyOptStr, hc, hx, hs]
        | inr tok =>
          by_cases hs : s.oauthServer = true <;>
            simp [handleCallback, falsyOptStr, hc, hx, hs]
  · intro exch code s h
    simp [handleCallback, h, close_if_server]
  · intro cid csec s hs h1 h2
    simp [startAuthorizationFlow, hs, h1, h2]
  · intro cid csec s hs h1 h2
    simp [startAuthorizationFlow, hs, h1, h2]

theorem listener_teardown_reaches_stopped_witness :
    (handleCallback sampleExch (some "c1")
        serverState).settled.oauthServer = false ∧
    (handleCallback sampleExch none serverState).sync.oauthServer =
      false ∧
    (startAuthorizationFlow "cid" "sec" false
        freshState).settled.oauthServer = false ∧
    (startAuthorizationFlow "cid" "sec" true freshState).bound = true :=
  ⟨listener_teardown_reaches_stopped.1 sampleExch (some "c1") serverState,
   listener_teardown_reaches_stopped.2.1 sampleExch none serverState rfl,
   listener_teardown_reaches_stopped.2.2.1 "cid" "sec" freshState rfl
     (by decide) (by decide),
   listener_teardown_reaches_stopped.2.2.2 "cid" "sec" freshState rfl
     (by decide) (by decide)⟩

theorem wellFormed_truthy {t : FitbitTokenData}
    (h : wellFormed t = true) : truthyOptStr t.access_token = true := by
  unfold wellFormed at h
  simp only [Bool.and_eq_true] at h
  exact h.1.1.1.1.1

theorem allOrNone_getAccessToken (now : Int)
    (parseDate : String → Option Int)
    (refresh : FitbitTokenData → Sum RefreshErrKind FitbitTokenData)
    (s : AuthState)
    (hw : ∀ t nt, refresh t = Sum.inr nt → wellFormed nt = true)
    (h : allOrNone s = true) :
    allOrNone (getAccessToken now parseDate refresh s).state = true := by
  unfold getAccessToken
  cases ht : s.tokenData with
  | none => simpa [ht] using h
  | some t =>
    by_cases ha : falsyOptStr s.accessToken = true
    · simpa [ht, ha] using h
    · simp only [Bool.not_eq_true] at ha
      by_cases he : jsExpiredCheck parseDate t now = true
      · have hl := libExpired_of_jsExpiredCheck parseDate t now he
        cases hr : refresh t with
        | inl e => simp [ht, ha, he, hl, hr, allOrNone]
        | inr nt =>
          have hnt := hw t nt hr
          simp [ht, ha, he, hl, hr, allOrNone, hnt,
                wellFormed_truthy hnt]
      · simp only [Bool.not_eq_true] at he
        simpa [ht, ha, he] using h

theorem allOrNone_handleCallback
    (exch : String → Sum Unit FitbitTokenData) (code : Option String)
    (s : AuthState)
    (hw : ∀ c tok, exch c = Sum.inr tok → wellFormed tok = true)
    (h : allOrNone s = true) :
    allOrNone (handleCallback exch code s).sync = true ∧
    allOrNone (handleCallback exch code s).settled = true := by
  have hb : ∀ b : Bool, allOrNone { s with oauthServer := b } =
      allOrNone s := by
    intro b
    cases s
    simp [allOrNone]
  rcases code with _ | c
  · constructor <;>
      · simp only [handleCallback, falsyOptStr, close_if_server]
        simpa [hb] using h
  · by_cases hc : c = ""
    · have h400 : handleCallback exch (some c) s =
          ⟨400, { s with oauthServer := false },
                { s with oauthServer := false }⟩ := by
        simp [handleCallback, falsyOptStr, hc, close_if_server]
      rw [h400]
      constructor <;>
        · simp only [hb]
          exact h
    · cases hx : exch c with
      | inl e =>
        constructor <;>
          by_cases hs : s.oauthServer = true <;>
          · simp only [handleCallback, falsyOptStr, hc, hx, hs]
            simp only [decide_eq_true_eq]
            simpa [allOrNone, hs] using h
      | inr tok =>
        have hto := hw c tok hx
        constructor <;>
          by_cases hs : s.oauthServer = true <;>
            simp [handleCallback, falsyOptStr, hc, hx, hs, allOrNone,
                  hto, wellFormed_truthy hto]

theorem allOrNone_initializeAuth (now : Int)
    (parseDate : String → Option Int)
    (refresh : FitbitTokenData → Sum RefreshErrKind FitbitTokenData)
    (s : AuthState)
    (ha0 : s.accessToken = none)
    (hfile : ∀ j, s.tokenFile = some j →
      wellFormed (fromJsonObj j) = true)
    (hw : ∀ t nt, refresh t = Sum.inr nt → wellFormed nt = true) :
    allOrNone (initializeAuth now parseDate refresh s) = true := by
  unfold initializeAuth loadTokenFromFile
  cases hf : s.tokenFile with
  | none => simp [hf, allOrNone, ha0]
  | some j =>
    have hwf := hfile j hf
    have htr := wellFormed_truthy hwf
    by_cases he : jsExpiredCheck parseDate (fromJsonObj j) now = true
    · have hl := libExpired_of_jsExpiredCheck parseDate (fromJsonObj j)
        now he
      cases hr : refresh (fromJsonObj j) with
      | inl e => simp [hf, htr, he, hl, hr, allOrNone]
      | inr nt =>
        have hnt := hw (fromJsonObj j) nt hr
        simp [hf, htr, he, hl, hr, allOrNone, hnt,
              wellFormed_truthy hnt]
    · simp only [Bool.not_eq_true] at he
      simp [hf, htr, he, allOrNone, hwf]

/-- A concrete state whose persisted file holds an empty JSON object:
`JSON.parse` succeeds on it, but the parsed record has no fields. -/
def junkFileState : AuthState :=
  { accessToken := none, tokenData := none,
    oauthServer := false, tokenFile := some [] }

/-- C4 counterexample: `initializeAuth` run on a fresh process state
whose token file holds an empty JSON object leaves `tokenData` set to a
record lacking every required field while `accessToken` stays `none`
(the line-288 guard only skips the adoption of `accessToken`, it does
not undo the line-286 assignment of `tokenData`): a reachable partial
state contradicting the all-or-nothing claim. -/
theorem state_all_or_none_cex :
    ¬ (allOrNone (initializeAuth 50 sampleParse refreshOk junkFileState) =
        true) := by
  decide

/-- C4 (amended): the all-or-nothing shape of the in-memory pair is
preserved by `getAccessToken` and by the callback handler, and is
established by `initializeAuth` from the fresh process state, provided
every token record obtained from the provider (refresh or exchange) and
any record parsed from the token file has all required fields.  Without
the proviso on the token file the property fails: `initializeAuth` on a
parsable file lacking a truthy `access_token` leaves `tokenData`
populated and `accessToken` null. -/
theorem state_all_or_none_amended :
    (∀ (now : Int) (parseDate : String → Option Int)
       (refresh : FitbitTokenData → Sum RefreshErrKind FitbitTokenData)
       (s : AuthState),
      (∀ t nt, refresh t = Sum.inr nt → wellFormed nt = true) →
      allOrNone s = true →
      allOrNone (getAccessToken now parseDate refresh s).state = true) ∧
    (∀ (exch : String → Sum Unit FitbitTokenData) (code : Option String)
       (s : AuthState),
      (∀ c tok, exch c = Sum.inr tok → wellFormed tok = true) →
      allOrNone s = true →
      allOrNone (handleCallback exch code s).sync = true ∧
      allOrNone (handleCallback exch code s).settled = true) ∧
    (∀ (now : Int) (parseDate : String → Option Int)
       (refresh : FitbitTokenData → Sum RefreshErrKind FitbitTokenData)
       (s : AuthState),
      s.accessToken = none →
      (∀ j, s.tokenFile = some j → wellFormed (fromJsonObj j) = true) →
      (∀ t nt, refresh t = Sum.inr nt → wellFormed nt = true) →
      allOrNone (initializeAuth now parseDate refresh s) = true) :=
  ⟨fun now parseDate refresh s hw h =>
     allOrNone_getAccessToken now parseDate refresh s hw h,
   fun exch code s hw h =>
     allOrNone_handleCallback exch code s hw h,
   fun now parseDate refresh s ha0 hfile hw =>
     allOrNone_initializeAuth now parseDate refresh s ha0 hfile hw⟩

theorem state_all_or_none_amended_witness :
    allOrNone (getAccessToken 50 sampleParse refreshOk
      sampleState).state = true ∧
    allOrNone (handleCallback sampleExch (some "c1") serverState).sync =
      true ∧
    allOrNone (initializeAuth 50 sampleParse refreshOk freshState) =
      true :=
  ⟨state_all_or_none_amended.1 50 sampleParse refreshOk sampleState
     (by intro t nt h2; injection h2 with h3; subst h3; decide)
     (by decide),
   (state_all_or_none_amended.2.1 sampleExch (some "c1") serverState
     (by intro c tok h2; injection h2 with h3; subst h3; decide)
     (by decide)).1,
   state_all_or_none_amended.2.2 50 sampleParse refreshOk freshState
     rfl (by intro j h2; simp [freshState] at h2)
     (by intro t nt h2; injection h2 with h3; subst h3; decide)⟩

